import Mathlib

/-!
Verification of the API-101 in-memory book/user server (`src/server.js`).

The JavaScript handlers are shallowly embedded as pure Lean functions over an
explicit store state.  JavaScript-specific behaviour is modelled explicitly:

* truthiness checks (`if (!x)`, `x || default`) on strings and numbers,
  where `""`, `0`, `undefined` are falsy;
* `parseInt` returning `NaN` on parse failure, modelled as `Option Int`
  (`none` = `NaN`), with sign, base-10 digits and the `0x` hex form;
* `Array.prototype.slice(0, end)` with a negative or `NaN` end index;
* request body / header / query fields as `Option` values
  (`none` = the key is absent, i.e. `undefined`).
-/

/-- Truthiness of a possibly-absent string value: `undefined` and `""` are
falsy, everything else is truthy (mirrors `if (!x)` in the handlers). -/
def optTruthyS : Option String → Bool
  | none => false
  | some s => s != ""

/-- Truthiness of a possibly-absent numeric value: `undefined` and `0` are
falsy (mirrors `if (!x)` in the handlers). -/
def optTruthyI : Option Int → Bool
  | none => false
  | some n => n != 0

/-- `x || d` for a possibly-absent numeric value (mirrors `year || default`). -/
def jsOrI : Option Int → Int → Int
  | some n, d => if n = 0 then d else n
  | none, d => d

/-- `x || d` for a possibly-absent string value (mirrors `genre || default`). -/
def jsOrS : Option String → String → String
  | some s, d => if s = "" then d else s
  | none, d => d

/-- Value of a decimal digit character, if it is one. -/
def decDigitVal (c : Char) : Option Nat :=
  if c.isDigit then some (c.toNat - 48) else none

/-- Value of a hexadecimal digit character, if it is one. -/
def hexDigitVal (c : Char) : Option Nat :=
  if c.isDigit then some (c.toNat - 48)
  else if 'a' ≤ c ∧ c ≤ 'f' then some (c.toNat - 87)
  else if 'A' ≤ c ∧ c ≤ 'F' then some (c.toNat - 55)
  else none

/-- Longest leading run of digits (under a digit-valuation), as values. -/
def leadingDigits (f : Char → Option Nat) : List Char → List Nat
  | [] => []
  | c :: cs =>
    match f c with
    | some d => d :: leadingDigits f cs
    | none => []

/-- Accumulate digit values in the given base. -/
def digitsToNat (base : Nat) (ds : List Nat) : Nat :=
  ds.foldl (fun acc d => acc * base + d) 0

/-- `parseInt` after leading whitespace has been removed: optional sign,
optional `0x`/`0X` prefix for base 16, then the longest leading digit run;
`none` models `NaN` (no digits). -/
def parseIntCore (cs : List Char) : Option Int :=
  let signAndRest : Int × List Char :=
    match cs with
    | '-' :: rest => (-1, rest)
    | '+' :: rest => (1, rest)
    | _ => (1, cs)
  let baseAndRest : Nat × List Char :=
    match signAndRest.2 with
    | '0' :: 'x' :: rest => (16, rest)
    | '0' :: 'X' :: rest => (16, rest)
    | _ => (10, signAndRest.2)
  let ds := leadingDigits (if baseAndRest.1 = 16 then hexDigitVal else decDigitVal) baseAndRest.2
  if ds.isEmpty then none
  else some (signAndRest.1 * (digitsToNat baseAndRest.1 ds : Int))

/-- JavaScript `parseInt(s)` (no radix argument): `some n` on success,
`none` for `NaN`. -/
def parseIntJs (s : String) : Option Int :=
  parseIntCore (s.data.dropWhile (fun c => c = ' ' ∨ c = '\t' ∨ c = '\n' ∨ c = '\r'))

/-- Number of elements kept by `arr.slice(0, end)` on an array of length
`len`: a negative end counts from the end of the array, `NaN` (`none`)
coerces to `0`. -/
def jsSliceEnd (len : Nat) (e : Option Int) : Nat :=
  match e with
  | none => 0
  | some n => if n < 0 then ((len : Int) + n).toNat else n.toNat

/-- A book record, as stored in the `books` array. -/
structure Book where
  id : Int
  title : String
  author : String
  year : Int
  genre : String
deriving DecidableEq, Repr

/-- A user record, as stored in the `users` array. -/
structure User where
  id : Int
  username : String
  email : String
  role : String
deriving DecidableEq, Repr

/-- The mutable book-side state: the `books` array and the `nextBookId`
counter. -/
structure BookStore where
  books : List Book
  nextBookId : Int
deriving DecidableEq, Repr

/-- The seeded `books` array. -/
def seedBooks : List Book :=
  [⟨1, "The API Design Book", "RESTful Roy", 2020, "Technology"⟩,
   ⟨2, "HTTP: The Definitive Guide", "Web Walker", 2019, "Technology"⟩,
   ⟨3, "JavaScript Mastery", "Code Carter", 2021, "Programming"⟩,
   ⟨4, "The Art of REST", "API Andy", 2022, "Technology"⟩]

/-- The seeded `users` array. -/
def seedUsers : List User :=
  [⟨1, "learner", "learner@api101.com", "student"⟩,
   ⟨2, "teacher", "teacher@api101.com", "admin"⟩]

/-- Initial store: seed books, `nextBookId = 5`. -/
def seedStore : BookStore := ⟨seedBooks, 5⟩

/-- `toLowerCase()`, character by character (ASCII case mapping; the data in
this server is ASCII). Defined over the character list so the kernel can
evaluate it. -/
def toLowerStr (s : String) : String := ⟨s.data.map Char.toLower⟩

/-- Lexicographic `<` on character lists, mirroring the JavaScript `<`
comparison of strings (code-unit order; identical on ASCII). -/
def charListLt : List Char → List Char → Bool
  | [], [] => false
  | [], _ :: _ => true
  | _ :: _, [] => false
  | a :: as, b :: bs => if a < b then true else if b < a then false else charListLt as bs

/-- JavaScript `<` on strings. -/
def strLt (a b : String) : Bool := charListLt a.data b.data

/-- `findIndex` together with the element found at that index (the handlers
do `books.findIndex(...)` and then read `books[bookIndex]`). -/
def findWithIdx (p : Book → Bool) : List Book → Option (Nat × Book)
  | [] => none
  | b :: bs =>
    if p b then some (0, b)
    else (findWithIdx p bs).map (fun q => (q.1 + 1, q.2))

/-- GET `/api/books` — the genre filter stage:
`if (req.query.genre) result = result.filter(... toLowerCase equality ...)`. -/
def applyGenre (bs : List Book) (g : Option String) : List Book :=
  match g with
  | none => bs
  | some s => if s = "" then bs else bs.filter (fun b => toLowerStr b.genre = toLowerStr s)

/-- Strict `<` between the values of a named field of two books; an unknown
field name compares as `undefined < undefined`, i.e. never. -/
def fieldLt (f : String) (a b : Book) : Bool :=
  if f = "id" then a.id < b.id
  else if f = "title" then strLt a.title b.title
  else if f = "author" then strLt a.author b.author
  else if f = "year" then a.year < b.year
  else if f = "genre" then strLt a.genre b.genre
  else false

/-- Stable insertion keeping `b` after every element `x` with `x ≤ b` under
the comparator (mirrors the stability of `Array.prototype.sort`). -/
def insertSorted (le : Book → Book → Bool) (b : Book) : List Book → List Book
  | [] => [b]
  | x :: xs => if le x b then x :: insertSorted le b xs else b :: x :: xs

/-- Stable sort by repeated insertion, in original order. -/
def stableSort (le : Book → Book → Bool) (bs : List Book) : List Book :=
  bs.foldl (fun acc b => insertSorted le b acc) []

/-- GET `/api/books` — the sort stage: `if (req.query.sort) result.sort(cmp)`
where `cmp` returns `-1/1/0` from `<`/`>` on the named field. The element
`a` stays before `b` exactly when `cmp a b ≤ 0`, i.e. `¬ fieldLt f b a`. -/
def applySort (bs : List Book) (s : Option String) : List Book :=
  match s with
  | none => bs
  | some f => if f = "" then bs else stableSort (fun a b => !(fieldLt f b a)) bs

/-- GET `/api/books` — the limit stage:
`if (req.query.limit) result = result.slice(0, parseInt(req.query.limit))`. -/
def applyLimit (bs : List Book) (l : Option String) : List Book :=
  match l with
  | none => bs
  | some s => if s = "" then bs else bs.take (jsSliceEnd bs.length (parseIntJs s))

/-- GET `/api/books`: filter by genre, then sort, then limit (the `data`
field of the 200 response). -/
def listBooks (bs : List Book) (genreQ sortQ limitQ : Option String) : List Book :=
  applyLimit (applySort (applyGenre bs genreQ) sortQ) limitQ

/-- Response of GET `/api/books/:id`. -/
structure GetBookRes where
  status : Nat
  data : Option Book
deriving DecidableEq, Repr

/-- GET `/api/books/:id` after the path segment has been parsed:
`books.find(b => b.id === bookId)`; a `NaN` id (`none`) matches nothing. -/
def getBookCore (bs : List Book) (bookId : Option Int) : GetBookRes :=
  let book : Option Book :=
    match bookId with
    | none => none
    | some i => bs.find? (fun b => b.id = i)
  match book with
  | none => ⟨404, none⟩
  | some b => ⟨200, some b⟩

/-- GET `/api/books/:id`: `parseInt` the path segment, then look up. -/
def getBook (bs : List Book) (idStr : String) : GetBookRes :=
  getBookCore bs (parseIntJs idStr)

/-- A JSON body for POST/PUT `/api/books`: the four fields, each possibly
absent (`none` = the key is missing, i.e. `undefined`). -/
structure BookBody where
  title : Option String
  author : Option String
  year : Option Int
  genre : Option String
deriving DecidableEq, Repr

/-- Response of POST `/api/books`. -/
structure CreateRes where
  status : Nat
  data : Option Book
deriving DecidableEq, Repr

/-- POST `/api/books`: reject with 400 when `!title || !author`; otherwise
build the book with `id: nextBookId++`, `year: year || currentYear`,
`genre: genre || "General"`, and push it. `currentYear` stands for
`new Date().getFullYear()`. -/
def createBook (st : BookStore) (body : BookBody) (currentYear : Int) :
    CreateRes × BookStore :=
  if !optTruthyS body.title || !optTruthyS body.author then
    (⟨400, none⟩, st)
  else
    let newBook : Book :=
      { id := st.nextBookId,
        title := body.title.getD "",
        author := body.author.getD "",
        year := jsOrI body.year currentYear,
        genre := jsOrS body.genre "General" }
    (⟨201, some newBook⟩,
     ⟨st.books ++ [newBook], st.nextBookId + 1⟩)

/-- Response of PUT `/api/books/:id`. -/
structure PutRes where
  status : Nat
  data : Option Book
deriving DecidableEq, Repr

/-- PUT `/api/books/:id`: 404 when `findIndex` fails (also when the path
segment parses to `NaN`); 400 when `!title || !author || !year || !genre`;
otherwise `books[bookIndex] = {id: bookId, title, author, year, genre}`. -/
def putBook (st : BookStore) (idStr : String) (body : BookBody) :
    PutRes × BookStore :=
  match parseIntJs idStr with
  | none => (⟨404, none⟩, st)
  | some bookId =>
    match findWithIdx (fun b => b.id = bookId) st.books with
    | none => (⟨404, none⟩, st)
    | some (idx, _) =>
      if !optTruthyS body.title || !optTruthyS body.author
          || !optTruthyI body.year || !optTruthyS body.genre then
        (⟨400, none⟩, st)
      else
        let nb : Book :=
          { id := bookId,
            title := body.title.getD "",
            author := body.author.getD "",
            year := body.year.getD 0,
            genre := body.genre.getD "" }
        (⟨200, some nb⟩, ⟨st.books.set idx nb, st.nextBookId⟩)

/-- A JSON body for PATCH `/api/books/:id`: any subset of the fields,
possibly including an `id` key. -/
structure PatchBody where
  idQ : Option Int
  titleQ : Option String
  authorQ : Option String
  yearQ : Option Int
  genreQ : Option String
deriving DecidableEq, Repr

/-- `Object.keys(req.body)` for a patch body (present keys, in the fixed
field order of the record). -/
def patchKeys (p : PatchBody) : List String :=
  (if p.idQ.isSome then ["id"] else [])
    ++ (if p.titleQ.isSome then ["title"] else [])
    ++ (if p.authorQ.isSome then ["author"] else [])
    ++ (if p.yearQ.isSome then ["year"] else [])
    ++ (if p.genreQ.isSome then ["genre"] else [])

/-- `{...old, ...body, id: bookId}`: supplied fields overwrite, absent
fields keep the old value, and `id` is forced back to `bookId` last. -/
def mergeBook (old : Book) (p : PatchBody) (bookId : Int) : Book :=
  { id := bookId,
    title := p.titleQ.getD old.title,
    author := p.authorQ.getD old.author,
    year := p.yearQ.getD old.year,
    genre := p.genreQ.getD old.genre }

/-- Response of PATCH `/api/books/:id`. -/
structure PatchRes where
  status : Nat
  previous : Option Book
  updated : Option Book
  fieldsChanged : List String
deriving DecidableEq, Repr

/-- PATCH `/api/books/:id`: 404 when `findIndex` fails; otherwise
`books[bookIndex] = {...books[bookIndex], ...req.body, id: bookId}` and the
response carries the previous snapshot, the updated value, and
`Object.keys(req.body)` as `fieldsChanged`. -/
def patchBook (st : BookStore) (idStr : String) (p : PatchBody) :
    PatchRes × BookStore :=
  match parseIntJs idStr with
  | none => (⟨404, none, none, []⟩, st)
  | some bookId =>
    match findWithIdx (fun b => b.id = bookId) st.books with
    | none => (⟨404, none, none, []⟩, st)
    | some (idx, old) =>
      let nb := mergeBook old p bookId
      (⟨200, some old, some nb, patchKeys p⟩,
       ⟨st.books.set idx nb, st.nextBookId⟩)

/-- Response of DELETE `/api/books/:id`. -/
structure DeleteRes where
  status : Nat
  deletedBook : Option Book
deriving DecidableEq, Repr

/-- DELETE `/api/books/:id`: 404 when `findIndex` fails; otherwise
`books.splice(bookIndex, 1)` and the removed book is returned. -/
def deleteBook (st : BookStore) (idStr : String) : DeleteRes × BookStore :=
  match parseIntJs idStr with
  | none => (⟨404, none⟩, st)
  | some bookId =>
    match findWithIdx (fun b => b.id = bookId) st.books with
    | none => (⟨404, none⟩, st)
    | some (idx, old) =>
      (⟨200, some old⟩, ⟨st.books.eraseIdx idx, st.nextBookId⟩)

/-- Response of GET `/api/users`. -/
structure UsersRes where
  status : Nat
  data : Option (List User)
deriving DecidableEq, Repr

/-- GET `/api/users`: `if (!authHeader)` → 401;
`if (authHeader !== "Bearer secret-token-123")` → 403; else 200 with the
full user list. The header is `none` when absent. -/
def getUsers (users : List User) (authHeader : Option String) : UsersRes :=
  if !optTruthyS authHeader then ⟨401, none⟩
  else if authHeader ≠ some "Bearer secret-token-123" then ⟨403, none⟩
  else ⟨200, some users⟩

/-- A JSON value as far as the calculator cares: a number (`typeof x ===
"number"`) or anything else (string, boolean, null, or an absent key,
i.e. `undefined`). JavaScript numbers are modelled as rationals; every
arithmetic the claims exercise is exact in double precision. -/
inductive JVal where
  | num (q : ℚ)
  | str (s : String)
  | boolv (b : Bool)
  | nullv
  | undef
deriving DecidableEq, Repr

/-- `typeof v === "number"`. -/
def isNum : JVal → Bool
  | JVal.num _ => true
  | _ => false

/-- Response of POST `/api/calculate`. -/
structure CalcRes where
  status : Nat
  result : Option ℚ
  formula : Option String
deriving DecidableEq, Repr

/-- The formula template string: operand, operation name, operand, result,
joined as in the handler's template literal. -/
def calcFormula (opName : String) (x y r : ℚ) : String :=
  toString x ++ " " ++ opName ++ " " ++ toString y ++ " = " ++ toString r

/-- A 200 calculator response. -/
def calcOk (opName : String) (x y r : ℚ) : CalcRes :=
  ⟨200, some r, some (calcFormula opName x y r)⟩

/-- POST `/api/calculate`: 400 unless both operands are numbers; then
dispatch on the operation name, with 400 for division by zero and for any
name outside add/subtract/multiply/divide (an absent operation also hits
the default branch). -/
def calculate (operation : Option String) (a b : JVal) : CalcRes :=
  match a, b with
  | JVal.num x, JVal.num y =>
    match operation with
    | some "add" => calcOk "add" x y (x + y)
    | some "subtract" => calcOk "subtract" x y (x - y)
    | some "multiply" => calcOk "multiply" x y (x * y)
    | some "divide" =>
      if y = 0 then ⟨400, none, none⟩
      else calcOk "divide" x y (x / y)
    | _ => ⟨400, none, none⟩
  | _, _ => ⟨400, none, none⟩

lemma findWithIdx_some_p (p : Book → Bool) :
    ∀ (l : List Book) (i : Nat) (b : Book),
      findWithIdx p l = some (i, b) → p b = true := by
  intro l
  induction l with
  | nil => intro i b h; simp [findWithIdx] at h
  | cons x xs ih =>
    intro i b h
    by_cases hx : p x
    · simp [findWithIdx, hx] at h
      exact h.2 ▸ hx
    · simp only [findWithIdx, hx, if_neg, Bool.false_eq_true, ite_false,
        Option.map_eq_some'] at h
      obtain ⟨q, hq, hqe⟩ := h
      have hb : q.2 = b := congrArg Prod.snd hqe
      exact hb ▸ ih q.1 q.2 (by rw [hq])

lemma findWithIdx_lt_length (p : Book → Bool) :
    ∀ (l : List Book) (i : Nat) (b : Book),
      findWithIdx p l = some (i, b) → i < l.length := by
  intro l
  induction l with
  | nil => intro i b h; simp [findWithIdx] at h
  | cons x xs ih =>
    intro i b h
    by_cases hx : p x
    · simp [findWithIdx, hx] at h
      have hi : i = 0 := h.1.symm
      subst hi
      simp
    · simp only [findWithIdx, hx, if_neg, Bool.false_eq_true, ite_false,
        Option.map_eq_some'] at h
      obtain ⟨q, hq, hqe⟩ := h
      have hi : q.1 + 1 = i := congrArg Prod.fst hqe
      have := ih q.1 q.2 (by rw [hq])
      simp only [List.length_cons]
      omega

lemma find?_set_of_findWithIdx (p : Book → Bool) (nb : Book) (hnb : p nb = true) :
    ∀ (l : List Book) (i : Nat) (b : Book),
      findWithIdx p l = some (i, b) → (l.set i nb).find? p = some nb := by
  intro l
  induction l with
  | nil => intro i b h; simp [findWithIdx] at h
  | cons x xs ih =>
    intro i b h
    by_cases hx : p x
    · simp [findWithIdx, hx] at h
      have hi : i = 0 := h.1.symm
      subst hi
      simp [List.set, List.find?, hnb]
    · simp only [findWithIdx, hx, if_neg, Bool.false_eq_true, ite_false,
        Option.map_eq_some'] at h
      obtain ⟨q, hq, hqe⟩ := h
      have hi : q.1 + 1 = i := congrArg Prod.fst hqe
      subst hi
      simp only [List.set]
      rw [List.find?_cons_of_neg _ (by simp [hx])]
      exact ih q.1 q.2 (by rw [hq])

lemma findWithIdx_eq_none_of (p : Book → Bool) :
    ∀ l : List Book, (∀ b ∈ l, p b = false) → findWithIdx p l = none := by
  intro l
  induction l with
  | nil => intro _; simp [findWithIdx]
  | cons x xs ih =>
    intro h
    have hx := h x (List.mem_cons_self x xs)
    simp [findWithIdx, hx, ih (fun b hb => h b (List.mem_cons_of_mem x hb))]

lemma mem_eraseIdx_of_not_p (p : Book → Bool) :
    ∀ (l : List Book) (i : Nat) (b x : Book),
      findWithIdx p l = some (i, b) → x ∈ l → p x = false → x ∈ l.eraseIdx i := by
  intro l
  induction l with
  | nil => intro i b x h; simp [findWithIdx] at h
  | cons y ys ih =>
    intro i b x h hx hpx
    by_cases hy : p y
    · simp [findWithIdx, hy] at h
      have hi : i = 0 := h.1.symm
      subst hi
      simp only [List.eraseIdx]
      rcases List.mem_cons.mp hx with hxy | hmem
      · exfalso; rw [hxy] at hpx; rw [hpx] at hy; exact Bool.false_ne_true hy
      · exact hmem
    · simp only [findWithIdx, hy, if_neg, Bool.false_eq_true, ite_false,
        Option.map_eq_some'] at h
      obtain ⟨q, hq, hqe⟩ := h
      have hi : q.1 + 1 = i := congrArg Prod.fst hqe
      subst hi
      simp only [List.eraseIdx]
      rcases List.mem_cons.mp hx with hxy | hmem
      · exact hxy ▸ List.mem_cons_self y _
      · exact List.mem_cons_of_mem y (ih q.1 q.2 x (by rw [hq]) hmem hpx)

lemma eraseIdx_id_free :
    ∀ (l : List Book) (t : Int) (i : Nat) (old : Book),
      findWithIdx (fun b => b.id = t) l = some (i, old) →
      l.Pairwise (fun a b => a.id ≠ b.id) →
      ∀ x ∈ l.eraseIdx i, x.id ≠ t := by
  intro l
  induction l with
  | nil => intro t i old h; simp [findWithIdx] at h
  | cons y ys ih =>
    intro t i old h hpw
    have hpw' := List.pairwise_cons.mp hpw
    by_cases hy : y.id = t
    · simp [findWithIdx, hy] at h
      have hi : i = 0 := h.1.symm
      subst hi
      simp only [List.eraseIdx]
      intro x hx
      have := hpw'.1 x hx
      rw [hy] at this
      exact fun hxt => this (by rw [hxt])
    · have hyb : (fun b => decide (b.id = t)) y = false := by simp [hy]
      simp only [findWithIdx, hyb, Bool.false_eq_true, ite_false,
        Option.map_eq_some'] at h
      obtain ⟨q, hq, hqe⟩ := h
      have hi : q.1 + 1 = i := congrArg Prod.fst hqe
      subst hi
      simp only [List.eraseIdx]
      intro x hx
      rcases List.mem_cons.mp hx with hxy | hmem
      · rw [hxy]; exact hy
      · exact ih t q.1 q.2 (by rw [hq]) hpw'.2 x hmem

lemma length_eraseIdx_findWithIdx (p : Book → Bool) :
    ∀ (l : List Book) (i : Nat) (b : Book),
      findWithIdx p l = some (i, b) → (l.eraseIdx i).length + 1 = l.length := by
  intro l
  induction l with
  | nil => intro i b h; simp [findWithIdx] at h
  | cons y ys ih =>
    intro i b h
    by_cases hy : p y
    · simp [findWithIdx, hy] at h
      have hi : i = 0 := h.1.symm
      subst hi
      simp
    · simp only [findWithIdx, hy, if_neg, Bool.false_eq_true, ite_false,
        Option.map_eq_some'] at h
      obtain ⟨q, hq, hqe⟩ := h
      have hi : q.1 + 1 = i := congrArg Prod.fst hqe
      subst hi
      simp only [List.eraseIdx, List.length_cons]
      rw [ih q.1 q.2 (by rw [hq])]

lemma find?_append_singleton (p : Book → Bool) (nb : Book) (hnb : p nb = true) :
    ∀ l : List Book, (∀ b ∈ l, p b = false) → (l ++ [nb]).find? p = some nb := by
  intro l
  induction l with
  | nil => intro _; simp [List.find?, hnb]
  | cons x xs ih =>
    intro h
    have hx := h x (List.mem_cons_self x xs)
    simp only [List.cons_append]
    rw [List.find?_cons_of_neg _ (by simp [hx])]
    exact ih (fun b hb => h b (List.mem_cons_of_mem x hb))

/-- C4 (counterexample): the claim says every limit N ≤ 0 yields an empty
sequence, but `slice(0, -1)` keeps everything except the last element: with
the four seeded books and `limit=-1`, the handler returns the first three
books, not an empty list. -/
theorem c4_counterexample :
    parseIntJs "-1" = some (-1) ∧ (-1 : Int) ≤ 0 ∧
    listBooks seedBooks none none (some "-1") = seedBooks.take 3 ∧
    listBooks seedBooks none none (some "-1") ≠ [] := by decide

/-- C4 (amended): for a list request whose non-empty `limit` parameter
parses to the integer N, the returned data is the prefix of the filtered
and sorted collection prescribed by `slice(0, N)`: for N ≥ 0 the first N
entries (all of them when N exceeds the count, so no upper bound is
enforced; N = 0 gives the empty sequence), while a negative N keeps all
but the last |N| entries (empty only when N ≤ -count). -/
theorem c4_limit_slice (bs : List Book) (g s : Option String) (l : String)
    (n : Int) (hl : l ≠ "") (hp : parseIntJs l = some n) :
    listBooks bs g s (some l)
        = (listBooks bs g s none).take
            (jsSliceEnd (listBooks bs g s none).length (some n)) ∧
    (0 ≤ n → listBooks bs g s (some l) = (listBooks bs g s none).take n.toNat) ∧
    (n = 0 → listBooks bs g s (some l) = []) ∧
    (n < 0 → listBooks bs g s (some l)
        = (listBooks bs g s none).take
            (((listBooks bs g s none).length : Int) + n).toNat) := by
  have hmain : listBooks bs g s (some l)
      = (listBooks bs g s none).take
          (jsSliceEnd (listBooks bs g s none).length (some n)) := by
    show applyLimit (applySort (applyGenre bs g) s) (some l) = _
    simp only [applyLimit, hl, ite_false, hp]
    rfl
  have hse : ∀ len : Nat, jsSliceEnd len (some n)
      = if n < 0 then ((len : Int) + n).toNat else n.toNat := fun _ => rfl
  refine ⟨hmain, ?_, ?_, ?_⟩
  · intro h0
    rw [hmain, hse, if_neg (by omega)]
  · intro h0
    subst h0
    rw [hmain, hse, if_neg (by omega)]
    simp
  · intro hneg
    rw [hmain, hse, if_pos hneg]

/-- C4 (witness): with the seeded books, `limit=2` keeps the first two
entries and `limit=0` keeps none. -/
theorem c4_witness :
    listBooks seedBooks none none (some "2") = (listBooks seedBooks none none none).take 2 ∧
    listBooks seedBooks none none (some "0") = [] := by
  constructor
  · exact (c4_limit_slice seedBooks none none "2" 2 (by decide) (by decide)).2.1 (by decide)
  · exact (c4_limit_slice seedBooks none none "0" 0 (by decide) (by decide)).2.2.1 rfl

/-- C8: on every book route taking a path identifier, a path segment whose
`parseInt` fails (NaN) behaves exactly as "not found": status 404 and an
unchanged store, with no distinct parse-error kind. -/
theorem c8_nonnumeric_id_not_found (st : BookStore) (idStr : String)
    (body : BookBody) (p : PatchBody) (h : parseIntJs idStr = none) :
    getBook st.books idStr = ⟨404, none⟩ ∧
    putBook st idStr body = (⟨404, none⟩, st) ∧
    patchBook st idStr p = (⟨404, none, none, []⟩, st) ∧
    deleteBook st idStr = (⟨404, none⟩, st) := by
  unfold getBook getBookCore putBook patchBook deleteBook
  rw [h]
  exact ⟨rfl, rfl, rfl, rfl⟩

/-- C8 (witness): the path segment `abc` yields 404 with the seed store
unchanged on all four routes. -/
theorem c8_witness :
    getBook seedStore.books "abc" = ⟨404, none⟩ ∧
    putBook seedStore "abc" ⟨some "T", some "A", some 1999, some "G"⟩ = (⟨404, none⟩, seedStore) ∧
    patchBook seedStore "abc" ⟨none, none, none, some 2030, none⟩ = (⟨404, none, none, []⟩, seedStore) ∧
    deleteBook seedStore "abc" = (⟨404, none⟩, seedStore) :=
  c8_nonnumeric_id_not_found seedStore "abc"
    ⟨some "T", some "A", some 1999, some "G"⟩
    ⟨none, none, none, some 2030, none⟩ (by decide)

/-- C10 (counterexample): a `limit` parameter that is present with the empty
string as value does not parse as an integer, yet the handler returns the
full collection, not the empty list — the truthiness guard
`if (req.query.limit)` skips the slice for `""`. -/
theorem c10_counterexample :
    parseIntJs "" = none ∧
    listBooks seedBooks none none (some "") = seedBooks ∧
    listBooks seedBooks none none (some "") ≠ [] := by decide

/-- C10 (amended): for every list request whose `limit` parameter is present
with a non-empty value that does not parse as an integer, the returned data
is the empty list regardless of how many books match the filter, because
the collection is sliced to a NaN endpoint. -/
theorem c10_limit_nan_empty (bs : List Book) (g s : Option String)
    (l : String) (hl : l ≠ "") (hp : parseIntJs l = none) :
    listBooks bs g s (some l) = [] := by
  show applyLimit (applySort (applyGenre bs g) s) (some l) = []
  simp [applyLimit, hl, hp, jsSliceEnd]

/-- C10 (witness): `limit=abc` on the seeded books returns the empty
list. -/
theorem c10_witness : listBooks seedBooks none none (some "abc") = [] :=
  c10_limit_nan_empty seedBooks none none "abc" (by decide) (by decide)

/-- C6 (counterexample): an Authorization header that is present with the
empty string as its value does not match the expected token, yet the
handler answers 401, not 403 — the guard `if (!authHeader)` also fires on
the falsy value `""`. -/
theorem c6_counterexample :
    (some "" : Option String) ≠ none ∧
    (some "" : Option String) ≠ some "Bearer secret-token-123" ∧
    getUsers seedUsers (some "") = ⟨401, none⟩ ∧
    (getUsers seedUsers (some "")).status ≠ 403 := by decide

/-- C6 (amended): GET `/api/users` answers 401 when the Authorization
header is absent or empty, 403 when it is present and non-empty but not
exactly `Bearer secret-token-123`, and 200 carrying the full user list on
an exact match. -/
theorem c6_users_auth (users : List User) (h : Option String) :
    (optTruthyS h = false → getUsers users h = ⟨401, none⟩) ∧
    (∀ v, h = some v → v ≠ "" → v ≠ "Bearer secret-token-123" →
      getUsers users h = ⟨403, none⟩) ∧
    (h = some "Bearer secret-token-123" → getUsers users h = ⟨200, some users⟩) := by
  refine ⟨?_, ?_, ?_⟩
  · intro hf
    unfold getUsers
    rw [hf]
    rfl
  · intro v hv hne hnm
    subst hv
    unfold getUsers
    rw [show optTruthyS (some v) = true by simp [optTruthyS, hne]]
    simp [hnm]
  · intro hv
    subst hv
    unfold getUsers
    rfl

/-- C6 (witness): with the seeded users, no header gives 401, a wrong
bearer value gives 403, and the exact token gives 200 with the full
list. -/
theorem c6_witness :
    getUsers seedUsers none = ⟨401, none⟩ ∧
    getUsers seedUsers (some "Bearer nope") = ⟨403, none⟩ ∧
    getUsers seedUsers (some "Bearer secret-token-123") = ⟨200, some seedUsers⟩ :=
  ⟨(c6_users_auth seedUsers none).1 (by decide),
   (c6_users_auth seedUsers (some "Bearer nope")).2.1 "Bearer nope" rfl (by decide) (by decide),
   (c6_users_auth seedUsers (some "Bearer secret-token-123")).2.2 rfl⟩

/-- C5: DELETE on an identifier absent from the store (including a path
segment that parses to nothing that matches) returns 404 with the store
unchanged; on a present identifier — in a store with pairwise-distinct
identifiers, as every reachable store has — it answers 200 with the
removed entry, removes exactly that entry (a subsequent Get of the
identifier answers 404, every other book survives, the count drops by
one), and repeating the same DELETE answers 404 leaving the store
unchanged: it never succeeds twice. -/
theorem c5_delete_idempotent (st : BookStore) (idStr : String)
    (hu : st.books.Pairwise (fun a b => a.id ≠ b.id)) :
    ((∀ i, parseIntJs idStr = some i →
        findWithIdx (fun b => b.id = i) st.books = none) →
      deleteBook st idStr = (⟨404, none⟩, st)) ∧
    (∀ i idx old, parseIntJs idStr = some i →
      findWithIdx (fun b => b.id = i) st.books = some (idx, old) →
      (deleteBook st idStr).1 = ⟨200, some old⟩ ∧
      getBookCore (deleteBook st idStr).2.books (some i) = ⟨404, none⟩ ∧
      (deleteBook st idStr).2.books.length + 1 = st.books.length ∧
      (∀ b ∈ st.books, b.id ≠ i → b ∈ (deleteBook st idStr).2.books) ∧
      deleteBook (deleteBook st idStr).2 idStr = (⟨404, none⟩, (deleteBook st idStr).2)) := by
  constructor
  · intro hnone
    cases hpi : parseIntJs idStr with
    | none =>
      unfold deleteBook
      rw [hpi]
    | some i =>
      unfold deleteBook
      rw [hpi]
      simp only [hnone i hpi]
  · intro i idx old hpi hfind
    have hdel : deleteBook st idStr
        = (⟨200, some old⟩, ⟨st.books.eraseIdx idx, st.nextBookId⟩) := by
      unfold deleteBook
      rw [hpi]
      simp only [hfind]
    have hfree : ∀ x ∈ st.books.eraseIdx idx, x.id ≠ i :=
      eraseIdx_id_free st.books i idx old hfind hu
    refine ⟨by rw [hdel], ?_, ?_, ?_, ?_⟩
    · rw [hdel]
      unfold getBookCore
      have hfnone : (st.books.eraseIdx idx).find? (fun b => decide (b.id = i)) = none := by
        rw [List.find?_eq_none]
        intro x hx
        simpa using hfree x hx
      simp only [hfnone]
    · rw [hdel]
      exact length_eraseIdx_findWithIdx _ st.books idx old hfind
    · intro b hb hbne
      rw [hdel]
      exact mem_eraseIdx_of_not_p _ st.books idx old b hfind hb (by simpa using hbne)
    · rw [hdel]
      unfold deleteBook
      rw [hpi]
      have h2 : findWithIdx (fun b => decide (b.id = i)) (st.books.eraseIdx idx) = none :=
        findWithIdx_eq_none_of _ _ (fun b hb => by simpa using hfree b hb)
      simp only [h2]

/-- C5 (witness): deleting book 2 from the seed store succeeds once, makes
Get of 2 answer 404, keeps the other three books, and a repeated DELETE
answers 404 without changing anything. -/
theorem c5_witness :
    (deleteBook seedStore "2").1
      = ⟨200, some ⟨2, "HTTP: The Definitive Guide", "Web Walker", 2019, "Technology"⟩⟩ ∧
    getBookCore (deleteBook seedStore "2").2.books (some 2) = ⟨404, none⟩ ∧
    (deleteBook seedStore "2").2.books.length + 1 = seedStore.books.length ∧
    (∀ b ∈ seedStore.books, b.id ≠ 2 → b ∈ (deleteBook seedStore "2").2.books) ∧
    deleteBook (deleteBook seedStore "2").2 "2" = (⟨404, none⟩, (deleteBook seedStore "2").2) :=
  (c5_delete_idempotent seedStore "2" (by decide)).2 2 1
    ⟨2, "HTTP: The Definitive Guide", "Web Walker", 2019, "Technology"⟩ (by decide) (by decide)

lemma mem_patchKeys_iff (p : PatchBody) (k : String) :
    k ∈ patchKeys p ↔
      ((k = "id" ∧ p.idQ.isSome = true) ∨ (k = "title" ∧ p.titleQ.isSome = true) ∨
       (k = "author" ∧ p.authorQ.isSome = true) ∨ (k = "year" ∧ p.yearQ.isSome = true) ∨
       (k = "genre" ∧ p.genreQ.isSome = true)) := by
  unfold patchKeys
  rcases p with ⟨i, t, a, y, g⟩
  cases i <;> cases t <;> cases a <;> cases y <;> cases g <;> simp

lemma mem_patchKeys_id (p : PatchBody) : "id" ∈ patchKeys p ↔ p.idQ.isSome = true := by
  rw [mem_patchKeys_iff]; simp

lemma mem_patchKeys_title (p : PatchBody) : "title" ∈ patchKeys p ↔ p.titleQ.isSome = true := by
  rw [mem_patchKeys_iff]; simp

lemma mem_patchKeys_author (p : PatchBody) : "author" ∈ patchKeys p ↔ p.authorQ.isSome = true := by
  rw [mem_patchKeys_iff]; simp

lemma mem_patchKeys_year (p : PatchBody) : "year" ∈ patchKeys p ↔ p.yearQ.isSome = true := by
  rw [mem_patchKeys_iff]; simp

lemma mem_patchKeys_genre (p : PatchBody) : "genre" ∈ patchKeys p ↔ p.genreQ.isSome = true := by
  rw [mem_patchKeys_iff]; simp

/-- C3: a PATCH on a stored book answers 200; the updated entry keeps the
original identifier even when the payload carries an id field, keeps every
field the payload does not mention, takes the value of every field the
payload does mention, and the response's fieldsChanged holds exactly the
keys supplied in the payload. -/
theorem c3_patch_frame (st : BookStore) (idStr : String) (i : Int)
    (idx : Nat) (old : Book) (p : PatchBody)
    (hpi : parseIntJs idStr = some i)
    (hfind : findWithIdx (fun b => b.id = i) st.books = some (idx, old)) :
    (patchBook st idStr p).1.status = 200 ∧
    (patchBook st idStr p).1.previous = some old ∧
    ("id" ∈ (patchBook st idStr p).1.fieldsChanged ↔ p.idQ.isSome = true) ∧
    ("title" ∈ (patchBook st idStr p).1.fieldsChanged ↔ p.titleQ.isSome = true) ∧
    ("author" ∈ (patchBook st idStr p).1.fieldsChanged ↔ p.authorQ.isSome = true) ∧
    ("year" ∈ (patchBook st idStr p).1.fieldsChanged ↔ p.yearQ.isSome = true) ∧
    ("genre" ∈ (patchBook st idStr p).1.fieldsChanged ↔ p.genreQ.isSome = true) ∧
    ∃ nb, (patchBook st idStr p).1.updated = some nb ∧
      (patchBook st idStr p).2.books = st.books.set idx nb ∧
      nb.id = old.id ∧
      (p.titleQ = none → nb.title = old.title) ∧
      (∀ t, p.titleQ = some t → nb.title = t) ∧
      (p.authorQ = none → nb.author = old.author) ∧
      (∀ a, p.authorQ = some a → nb.author = a) ∧
      (p.yearQ = none → nb.year = old.year) ∧
      (∀ y, p.yearQ = some y → nb.year = y) ∧
      (p.genreQ = none → nb.genre = old.genre) ∧
      (∀ g, p.genreQ = some g → nb.genre = g) := by
  have hoid : old.id = i := by
    have := findWithIdx_some_p (fun b => decide (b.id = i)) st.books idx old hfind
    simpa using this
  have hpatch : patchBook st idStr p
      = (⟨200, some old, some (mergeBook old p i), patchKeys p⟩,
         ⟨st.books.set idx (mergeBook old p i), st.nextBookId⟩) := by
    unfold patchBook
    rw [hpi]
    simp only [hfind]
  rw [hpatch]
  refine ⟨rfl, rfl, mem_patchKeys_id p, mem_patchKeys_title p,
    mem_patchKeys_author p, mem_patchKeys_year p, mem_patchKeys_genre p,
    mergeBook old p i, rfl, rfl, hoid.symm, ?_, ?_, ?_, ?_, ?_, ?_, ?_, ?_⟩
  · intro h; simp [mergeBook, h]
  · intro t h; simp [mergeBook, h]
  · intro h; simp [mergeBook, h]
  · intro a h; simp [mergeBook, h]
  · intro h; simp [mergeBook, h]
  · intro y h; simp [mergeBook, h]
  · intro h; simp [mergeBook, h]
  · intro g h; simp [mergeBook, h]

/-- C3 (witness): patching book 1 with a payload holding only year 2030
changes only the year, keeps title, author and genre, keeps id 1, and
reports exactly the key year as changed. -/
theorem c3_witness :
    (patchBook seedStore "1" ⟨none, none, none, some 2030, none⟩).1.status = 200 ∧
    ("year" ∈ (patchBook seedStore "1" ⟨none, none, none, some 2030, none⟩).1.fieldsChanged
      ↔ (some (2030 : Int)).isSome = true) ∧
    ∃ nb, (patchBook seedStore "1" ⟨none, none, none, some 2030, none⟩).1.updated = some nb ∧
      nb.id = 1 ∧ nb.title = "The API Design Book" ∧ nb.author = "RESTful Roy" ∧
      nb.year = 2030 ∧ nb.genre = "Technology" := by
  have h := c3_patch_frame seedStore "1" 1 0
    ⟨1, "The API Design Book", "RESTful Roy", 2020, "Technology"⟩
    ⟨none, none, none, some 2030, none⟩ (by decide) (by decide)
  obtain ⟨hs, _, _, _, _, hy, _, nb, hup, _, hid, hpt, _, hpa, _, _, hyy, hpg, _⟩ := h
  exact ⟨hs, hy, nb, hup, hid, hpt rfl, hpa rfl, hyy 2030 rfl, hpg rfl⟩

lemma jsOrI_of_ne (y d : Int) (h : y ≠ 0) : jsOrI (some y) d = y := by
  simp [jsOrI, h]

lemma jsOrI_falsy (o : Option Int) (d : Int) (h : o = none ∨ o = some 0) :
    jsOrI o d = d := by
  rcases h with h | h <;> subst h <;> simp [jsOrI]

lemma jsOrS_of_ne (s d : String) (h : s ≠ "") : jsOrS (some s) d = s := by
  simp [jsOrS, h]

lemma jsOrS_falsy (o : Option String) (d : String) (h : o = none ∨ o = some "") :
    jsOrS o d = d := by
  rcases h with h | h <;> subst h <;> simp [jsOrS]

lemma createBook_valid (st : BookStore) (body : BookBody) (cy : Int)
    (ht : optTruthyS body.title = true) (ha : optTruthyS body.author = true) :
    createBook st body cy
      = (⟨201, some ⟨st.nextBookId, body.title.getD "", body.author.getD "",
            jsOrI body.year cy, jsOrS body.genre "General"⟩⟩,
         ⟨st.books ++ [⟨st.nextBookId, body.title.getD "", body.author.getD "",
            jsOrI body.year cy, jsOrS body.genre "General"⟩], st.nextBookId + 1⟩) := by
  unfold createBook
  rw [ht, ha]
  rfl

/-- The maximum identifier among the books of a collection (0 when it is
empty; all seeded identifiers are positive). -/
def maxBookId (bs : List Book) : Int := bs.foldl (fun m b => max m b.id) 0

/-- C9 (counterexample): a create supplying year 0 and genre `""` — both
supplied, not omitted — stores the current year (here 2026) and the genre
`General` instead of the supplied values, because `year || default` and
`genre || default` also replace the falsy supplied values `0` and `""`. -/
theorem c9_counterexample :
    (createBook seedStore ⟨some "T", some "A", some 0, some ""⟩ 2026).1.data.map Book.year
      = some 2026 ∧
    (createBook seedStore ⟨some "T", some "A", some 0, some ""⟩ 2026).1.data.map Book.year
      ≠ some 0 ∧
    (createBook seedStore ⟨some "T", some "A", some 0, some ""⟩ 2026).1.data.map Book.genre
      = some "General" ∧
    (createBook seedStore ⟨some "T", some "A", some 0, some ""⟩ 2026).1.data.map Book.genre
      ≠ some "" := by decide

/-- C9 (amended): on a valid create, a supplied non-zero year is stored as
given and the current year is used when year is omitted or supplied as the
falsy value 0; a supplied non-empty genre is stored as given and
`General` is used when genre is omitted or supplied as `""`. -/
theorem c9_create_defaults (st : BookStore) (body : BookBody) (cy : Int)
    (ht : optTruthyS body.title = true) (ha : optTruthyS body.author = true) :
    ∃ nb, (createBook st body cy).1 = ⟨201, some nb⟩ ∧
      (∀ y, body.year = some y → y ≠ 0 → nb.year = y) ∧
      ((body.year = none ∨ body.year = some 0) → nb.year = cy) ∧
      (∀ g, body.genre = some g → g ≠ "" → nb.genre = g) ∧
      ((body.genre = none ∨ body.genre = some "") → nb.genre = "General") := by
  have hc := createBook_valid st body cy ht ha
  refine ⟨_, by rw [hc], ?_, ?_, ?_, ?_⟩
  · intro y hy hne
    show jsOrI body.year cy = y
    rw [hy]
    exact jsOrI_of_ne y cy hne
  · intro hy
    exact jsOrI_falsy body.year cy hy
  · intro g hg hne
    show jsOrS body.genre "General" = g
    rw [hg]
    exact jsOrS_of_ne g "General" hne
  · intro hg
    exact jsOrS_falsy body.genre "General" hg

/-- C9 (witness): creating with year 1984 and genre `Dystopia` stores them
as given; creating with both omitted stores the current year and
`General`. -/
theorem c9_witness :
    (∃ nb, (createBook seedStore ⟨some "T", some "A", some 1984, some "Dystopia"⟩ 2026).1
        = ⟨201, some nb⟩ ∧ nb.year = 1984 ∧ nb.genre = "Dystopia") ∧
    (∃ nb, (createBook seedStore ⟨some "T", some "A", none, none⟩ 2026).1
        = ⟨201, some nb⟩ ∧ nb.year = 2026 ∧ nb.genre = "General") := by
  constructor
  · obtain ⟨nb, h1, hy, -, hg, -⟩ :=
      c9_create_defaults seedStore ⟨some "T", some "A", some 1984, some "Dystopia"⟩ 2026
        (by decide) (by decide)
    exact ⟨nb, h1, hy 1984 rfl (by decide), hg "Dystopia" rfl (by decide)⟩
  · obtain ⟨nb, h1, -, hy, -, hg⟩ :=
      c9_create_defaults seedStore ⟨some "T", some "A", none, none⟩ 2026
        (by decide) (by decide)
    exact ⟨nb, h1, hy (Or.inl rfl), hg (Or.inl rfl)⟩

/-- C1 (counterexample): after deleting book 4 from the seed store, the
maximum identifier in the collection is 3, yet a valid create assigns the
identifier 5 — the counter value — not 3 + 1 = 4 as the claim demands. -/
theorem c1_counterexample :
    maxBookId (deleteBook seedStore "4").2.books = 3 ∧
    (createBook (deleteBook seedStore "4").2 ⟨some "T", some "A", none, none⟩ 2026).1.data.map Book.id
      = some 5 ∧
    (createBook (deleteBook seedStore "4").2 ⟨some "T", some "A", none, none⟩ 2026).1.data.map Book.id
      ≠ some (maxBookId (deleteBook seedStore "4").2.books + 1) := by decide

/-- C1 (amended): a valid create returns 201 and assigns the next-id
counter value as the new identifier; in every store whose counter exceeds
all stored identifiers — an invariant of all reachable stores — the new
identifier is therefore strictly greater than every existing identifier
(it equals the previous maximum plus one only when no deletion has removed
the maximum), the counter advances by one, and the new entry is afterwards
retrievable via Get of that identifier. -/
theorem c1_create_assigns_counter (st : BookStore) (body : BookBody) (cy : Int)
    (ht : optTruthyS body.title = true) (ha : optTruthyS body.author = true)
    (hinv : ∀ b ∈ st.books, b.id < st.nextBookId) :
    ∃ nb, (createBook st body cy).1 = ⟨201, some nb⟩ ∧
      nb.id = st.nextBookId ∧
      (∀ b ∈ st.books, b.id < nb.id) ∧
      (createBook st body cy).2.nextBookId = st.nextBookId + 1 ∧
      getBookCore (createBook st body cy).2.books (some nb.id) = ⟨200, some nb⟩ := by
  have hc := createBook_valid st body cy ht ha
  refine ⟨⟨st.nextBookId, body.title.getD "", body.author.getD "",
      jsOrI body.year cy, jsOrS body.genre "General"⟩,
    by rw [hc], rfl, fun b hb => hinv b hb, by rw [hc], ?_⟩
  rw [hc]
  unfold getBookCore
  have hfind : (st.books ++ [(⟨st.nextBookId, body.title.getD "", body.author.getD "",
      jsOrI body.year cy, jsOrS body.genre "General"⟩ : Book)]).find?
        (fun b => decide (b.id = st.nextBookId))
      = some ⟨st.nextBookId, body.title.getD "", body.author.getD "",
          jsOrI body.year cy, jsOrS body.genre "General"⟩ := by
    apply find?_append_singleton _ _ (by simp) st.books
    intro b hb
    simp only [decide_eq_false_iff_not]
    have := hinv b hb
    omega
  simp only [hfind]

/-- C1 (witness): creating a valid book on the seed store assigns
identifier 5 = nextBookId, greater than every seeded identifier, and the
entry is retrievable via Get of 5. -/
theorem c1_witness :
    ∃ nb, (createBook seedStore ⟨some "New Book", some "New Author", none, none⟩ 2026).1
        = ⟨201, some nb⟩ ∧
      nb.id = seedStore.nextBookId ∧
      (∀ b ∈ seedStore.books, b.id < nb.id) ∧
      (createBook seedStore ⟨some "New Book", some "New Author", none, none⟩ 2026).2.nextBookId
        = seedStore.nextBookId + 1 ∧
      getBookCore (createBook seedStore ⟨some "New Book", some "New Author", none, none⟩ 2026).2.books
        (some nb.id) = ⟨200, some nb⟩ :=
  c1_create_assigns_counter seedStore ⟨some "New Book", some "New Author", none, none⟩ 2026
    (by decide) (by decide) (by decide)

lemma putBook_found (st : BookStore) (idStr : String) (body : BookBody)
    (i : Int) (idx : Nat) (old : Book)
    (hpi : parseIntJs idStr = some i)
    (hfind : findWithIdx (fun b => b.id = i) st.books = some (idx, old)) :
    putBook st idStr body =
      if (!optTruthyS body.title || !optTruthyS body.author
          || !optTruthyI body.year || !optTruthyS body.genre) = true
      then (⟨400, none⟩, st)
      else (⟨200, some ⟨i, body.title.getD "", body.author.getD "",
              body.year.getD 0, body.genre.getD ""⟩⟩,
            ⟨st.books.set idx ⟨i, body.title.getD "", body.author.getD "",
              body.year.getD 0, body.genre.getD ""⟩, st.nextBookId⟩) := by
  unfold putBook
  rw [hpi]
  simp only [hfind]

/-- C2 (counterexample): the identifier 1 is present in the seed store and
all four fields are supplied, but the supplied year is the falsy value 0,
so the handler answers 400 — the guard `!title || !author || !year ||
!genre` also fires on supplied falsy values — and a subsequent Get still
returns the old entry, not the supplied field values. -/
theorem c2_counterexample :
    ((⟨some "T", some "A", some 0, some "G"⟩ : BookBody).title.isSome
      ∧ (⟨some "T", some "A", some 0, some "G"⟩ : BookBody).author.isSome
      ∧ (⟨some "T", some "A", some 0, some "G"⟩ : BookBody).year.isSome
      ∧ (⟨some "T", some "A", some 0, some "G"⟩ : BookBody).genre.isSome) ∧
    (putBook seedStore "1" ⟨some "T", some "A", some 0, some "G"⟩).1.status = 400 ∧
    (putBook seedStore "1" ⟨some "T", some "A", some 0, some "G"⟩).2 = seedStore ∧
    getBook (putBook seedStore "1" ⟨some "T", some "A", some 0, some "G"⟩).2.books "1"
      = ⟨200, some ⟨1, "The API Design Book", "RESTful Roy", 2020, "Technology"⟩⟩ := by decide

/-- C2 (amended): for a stored identifier, PUT with all four fields
supplied with truthy values (non-empty title, author and genre, non-zero
year) makes a subsequent Get return exactly those four field values under
the original identifier; a body in which any of the four fields is
missing or falsy yields 400 and leaves the store unchanged; an absent
identifier yields 404 with the store unchanged. -/
theorem c2_put_replace (st : BookStore) (idStr : String) (body : BookBody) :
    ((∀ i, parseIntJs idStr = some i →
        findWithIdx (fun b => b.id = i) st.books = none) →
      putBook st idStr body = (⟨404, none⟩, st)) ∧
    (∀ i idx old, parseIntJs idStr = some i →
      findWithIdx (fun b => b.id = i) st.books = some (idx, old) →
      (∀ t a y g, body = ⟨some t, some a, some y, some g⟩ →
        t ≠ "" → a ≠ "" → y ≠ 0 → g ≠ "" →
        (putBook st idStr body).1 = ⟨200, some ⟨i, t, a, y, g⟩⟩ ∧
        getBookCore (putBook st idStr body).2.books (some i) = ⟨200, some ⟨i, t, a, y, g⟩⟩) ∧
      (¬ (optTruthyS body.title = true ∧ optTruthyS body.author = true ∧
          optTruthyI body.year = true ∧ optTruthyS body.genre = true) →
        (putBook st idStr body).1.status = 400 ∧ (putBook st idStr body).2 = st)) := by
  constructor
  · intro hnone
    cases hpi : parseIntJs idStr with
    | none =>
      unfold putBook
      rw [hpi]
    | some i =>
      unfold putBook
      rw [hpi]
      simp only [hnone i hpi]
  · intro i idx old hpi hfind
    have hput := putBook_found st idStr body i idx old hpi hfind
    constructor
    · intro t a y g hbody ht ha hy hg
      subst hbody
      have hcond : (!optTruthyS (some t) || !optTruthyS (some a)
          || !optTruthyI (some y) || !optTruthyS (some g)) = false := by
        simp [optTruthyS, optTruthyI, ht, ha, hy, hg]
      rw [hput, hcond]
      simp only [Bool.false_eq_true, if_false]
      refine ⟨rfl, ?_⟩
      unfold getBookCore
      have hfset : (st.books.set idx
            (⟨i, (some t).getD "", (some a).getD "", (some y).getD 0, (some g).getD ""⟩ : Book)).find?
            (fun b => decide (b.id = i))
          = some ⟨i, (some t).getD "", (some a).getD "", (some y).getD 0, (some g).getD ""⟩ := by
        apply find?_set_of_findWithIdx _ _ (by simp) st.books idx old hfind
      simp only [hfset]
      rfl
    · intro hfalsy
      have hcond : (!optTruthyS body.title || !optTruthyS body.author
          || !optTruthyI body.year || !optTruthyS body.genre) = true := by
        cases hT : optTruthyS body.title <;> cases hA : optTruthyS body.author <;>
          cases hY : optTruthyI body.year <;> cases hG : optTruthyS body.genre <;>
          simp_all
      rw [hput, hcond]
      exact ⟨rfl, rfl⟩

/-- C2 (witness): replacing book 1 with four truthy fields makes Get
return exactly those values under identifier 1; a body missing the genre
field yields 400 and leaves the store unchanged; putting to the absent
identifier 99 yields 404 with the store unchanged. -/
theorem c2_witness :
    ((putBook seedStore "1" ⟨some "New T", some "New A", some 1999, some "Drama"⟩).1
        = ⟨200, some ⟨1, "New T", "New A", 1999, "Drama"⟩⟩ ∧
      getBookCore (putBook seedStore "1" ⟨some "New T", some "New A", some 1999, some "Drama"⟩).2.books
        (some 1) = ⟨200, some ⟨1, "New T", "New A", 1999, "Drama"⟩⟩) ∧
    ((putBook seedStore "1" ⟨some "New T", some "New A", some 1999, none⟩).1.status = 400 ∧
      (putBook seedStore "1" ⟨some "New T", some "New A", some 1999, none⟩).2 = seedStore) ∧
    putBook seedStore "99" ⟨some "New T", some "New A", some 1999, some "Drama"⟩
      = (⟨404, none⟩, seedStore) := by
  refine ⟨?_, ?_, ?_⟩
  · exact ((c2_put_replace seedStore "1" ⟨some "New T", some "New A", some 1999, some "Drama"⟩).2
      1 0 ⟨1, "The API Design Book", "RESTful Roy", 2020, "Technology"⟩
      (by decide) (by decide)).1 "New T" "New A" 1999 "Drama" rfl
      (by decide) (by decide) (by decide) (by decide)
  · exact ((c2_put_replace seedStore "1" ⟨some "New T", some "New A", some 1999, none⟩).2
      1 0 ⟨1, "The API Design Book", "RESTful Roy", 2020, "Technology"⟩
      (by decide) (by decide)).2 (by decide)
  · exact (c2_put_replace seedStore "99" ⟨some "New T", some "New A", some 1999, some "Drama"⟩).1
      (fun i hpi => by
        have : i = 99 := by
          have := hpi
          simp [parseIntJs, parseIntCore, leadingDigits, decDigitVal, digitsToNat] at this
          omega
        subst this
        decide)

lemma calculate_default (s : String) (x y : ℚ)
    (h1 : s ≠ "add") (h2 : s ≠ "subtract") (h3 : s ≠ "multiply") (h4 : s ≠ "divide") :
    calculate (some s) (JVal.num x) (JVal.num y) = ⟨400, none, none⟩ := by
  unfold calculate
  split <;> simp_all

/-- C7: the calculator answers 400 when an operand is not a number, when
both are numbers but the operation name is outside
add/subtract/multiply/divide, and for divide with b = 0; otherwise it
answers 200 carrying the computed result of the named operation together
with a formula string. -/
theorem c7_calculator (op : Option String) (a b : JVal) :
    ((isNum a = false ∨ isNum b = false) → (calculate op a b).status = 400) ∧
    (∀ x y, a = JVal.num x → b = JVal.num y →
      ((op ≠ some "add" ∧ op ≠ some "subtract" ∧ op ≠ some "multiply" ∧ op ≠ some "divide") →
        (calculate op a b).status = 400) ∧
      (op = some "divide" → y = 0 → (calculate op a b).status = 400) ∧
      (op = some "add" → (calculate op a b).status = 200 ∧
        (calculate op a b).result = some (x + y) ∧ (calculate op a b).formula.isSome = true) ∧
      (op = some "subtract" → (calculate op a b).status = 200 ∧
        (calculate op a b).result = some (x - y) ∧ (calculate op a b).formula.isSome = true) ∧
      (op = some "multiply" → (calculate op a b).status = 200 ∧
        (calculate op a b).result = some (x * y) ∧ (calculate op a b).formula.isSome = true) ∧
      (op = some "divide" → y ≠ 0 → (calculate op a b).status = 200 ∧
        (calculate op a b).result = some (x / y) ∧ (calculate op a b).formula.isSome = true)) := by
  constructor
  · intro h
    cases a <;> cases b <;> first
      | rfl
      | (simp [isNum] at h)
  · intro x y hax hby
    subst hax
    subst hby
    refine ⟨?_, ?_, ?_, ?_, ?_, ?_⟩
    · intro ⟨h1, h2, h3, h4⟩
      cases op with
      | none => rfl
      | some s =>
        rw [calculate_default s x y (fun hs => h1 (by rw [hs])) (fun hs => h2 (by rw [hs]))
          (fun hs => h3 (by rw [hs])) (fun hs => h4 (by rw [hs]))]
    · intro hop hy0
      subst hop
      subst hy0
      simp [calculate]
    · intro hop
      subst hop
      exact ⟨rfl, rfl, rfl⟩
    · intro hop
      subst hop
      exact ⟨rfl, rfl, rfl⟩
    · intro hop
      subst hop
      exact ⟨rfl, rfl, rfl⟩
    · intro hop hy0
      subst hop
      have : calculate (some "divide") (JVal.num x) (JVal.num y)
          = calcOk "divide" x y (x / y) := by
        show (if y = 0 then (⟨400, none, none⟩ : CalcRes) else calcOk "divide" x y (x / y))
          = calcOk "divide" x y (x / y)
        rw [if_neg hy0]
      rw [this]
      exact ⟨rfl, rfl, rfl⟩

/-- C7 (witness): multiply with a = 7, b = 8 answers 200 with result 56;
divide with b = 0 answers 400; a non-numeric operand answers 400; the
unknown operation name pow answers 400. -/
theorem c7_witness :
    (calculate (some "multiply") (JVal.num 7) (JVal.num 8)).status = 200 ∧
    (calculate (some "multiply") (JVal.num 7) (JVal.num 8)).result = some 56 ∧
    (calculate (some "divide") (JVal.num 5) (JVal.num 0)).status = 400 ∧
    (calculate (some "add") (JVal.str "5") (JVal.num 3)).status = 400 ∧
    (calculate (some "pow") (JVal.num 2) (JVal.num 3)).status = 400 := by
  have hm := ((c7_calculator (some "multiply") (JVal.num 7) (JVal.num 8)).2 7 8 rfl rfl).2.2.2.2.1 rfl
  have hd := ((c7_calculator (some "divide") (JVal.num 5) (JVal.num 0)).2 5 0 rfl rfl).2.1 rfl rfl
  have hs := (c7_calculator (some "add") (JVal.str "5") (JVal.num 3)).1 (Or.inl rfl)
  have hp := ((c7_calculator (some "pow") (JVal.num 2) (JVal.num 3)).2 2 3 rfl rfl).1
    (by refine ⟨?_, ?_, ?_, ?_⟩ <;> decide)
  refine ⟨hm.1, ?_, hd, hs, hp⟩
  rw [hm.2.1]
  norm_num

example : getBook seedBooks "3" = ⟨200, some ⟨3, "JavaScript Mastery", "Code Carter", 2021, "Programming"⟩⟩ := by decide
example : getBook seedBooks "9" = ⟨404, none⟩ := by decide
example : getBook seedBooks "abc" = ⟨404, none⟩ := by decide
example : parseIntJs "  -12x" = some (-12) := by decide
example : parseIntJs "0x1A" = some 26 := by decide
example : parseIntJs "0x" = none := by decide
example : listBooks seedBooks none none (some "-1") = seedBooks.take 3 := by decide
example : listBooks seedBooks none none (some "abc") = [] := by decide
example : listBooks seedBooks none none (some "") = seedBooks := by decide
example : (listBooks seedBooks (some "technology") (some "year") none).map Book.id = [2, 1, 4] := by decide
example : (createBook seedStore ⟨some "T", some "A", some 0, some ""⟩ 2026).1.data = some ⟨5, "T", "A", 2026, "General"⟩ := by decide
example : (putBook seedStore "1" ⟨some "T", some "A", some 0, some "G"⟩).1.status = 400 := by decide
example : (putBook seedStore "1" ⟨some "T", some "A", some 1999, some "G"⟩).1.status = 200 := by decide
example : (patchBook seedStore "1" ⟨none, none, none, some 2030, none⟩).1.fieldsChanged = ["year"] := by decide
example : (deleteBook seedStore "4").2.books.length = 3 := by decide
example : getUsers seedUsers (some "") = ⟨401, none⟩ := by decide
example : getUsers seedUsers (some "Bearer secret-token-123") = ⟨200, some seedUsers⟩ := by decide
example : (calculate (some "multiply") (JVal.num 7) (JVal.num 8)).result = some 56 := by
  norm_num [calculate, calcOk]
example : (calculate (some "divide") (JVal.num 5) (JVal.num 0)).status = 400 := by
  norm_num [calculate]
example : (calculate (some "pow") (JVal.num 2) (JVal.num 3)).status = 400 := by decide
